import Mathlib

/-!
Verification of the satsday dice-house core against its specification.

The definitions below are a shallow embedding of the Rust sources:
`src/key_derivation.rs` (multiplier table), `src/games/satoshis_number.rs`
(the game evaluator, including a from-scratch executable SHA-256),
`src/nonce_service.rs` (nonce reveal gating), `src/db.rs` (ledger
operations), `src/transaction_processor.rs` (settlement pipeline:
classification, donation handling, payout retry loops) and
`src/recovery.rs` (missed-games and missed-payouts sweeps).
Machine integers are modelled as `Nat` with explicit `% 2 ^ 64` where
u64 overflow can matter; the payout amount, which the Rust code computes
in IEEE-754 binary64 arithmetic, is modelled by an exact round-to-nearest-
even model of binary64 over `ℚ` (the values involved stay in the normal
range, so rounding at 53 significand bits is the exact IEEE semantics).
-/

/-- Multiplier options for the dice game (src/key_derivation.rs). -/
inductive Multiplier where
  | X105
  | X110
  | X133
  | X150
  | X200
  | X300
  | X1000
  | X2500
  | X5000
  | X10000
  | X100000
  deriving DecidableEq, Repr

namespace Multiplier

/-- Embeds `Multiplier::multiplier`: the payout value in basis-hundredths. -/
def multiplier : Multiplier → Nat
  | X105 => 105
  | X110 => 110
  | X133 => 133
  | X150 => 150
  | X200 => 200
  | X300 => 300
  | X1000 => 1000
  | X2500 => 2500
  | X5000 => 5000
  | X10000 => 10000
  | X100000 => 100000

/-- Embeds `Multiplier::index`: the BIP32 derivation-path child index. -/
def index : Multiplier → Nat
  | X105 => 0
  | X110 => 1
  | X133 => 2
  | X150 => 3
  | X200 => 4
  | X300 => 5
  | X1000 => 6
  | X2500 => 7
  | X5000 => 8
  | X10000 => 9
  | X100000 => 10

/-- Embeds `Multiplier::get_lower_than`: the win threshold over a 16-bit roll. -/
def get_lower_than : Multiplier → Nat
  | X105 => 60541
  | X110 => 57789
  | X133 => 47796
  | X150 => 42379
  | X200 => 31784
  | X300 => 21189
  | X1000 => 6356
  | X2500 => 2542
  | X5000 => 1271
  | X10000 => 635
  | X100000 => 64

/-- Embeds `Multiplier::is_win`: a roll wins iff it is below the threshold. -/
def is_win (m : Multiplier) (rolled_number : Nat) : Bool :=
  rolled_number < m.get_lower_than

/-- Embeds `Multiplier::from_index`. -/
def from_index : Nat → Option Multiplier
  | 0 => some X105
  | 1 => some X110
  | 2 => some X133
  | 3 => some X150
  | 4 => some X200
  | 5 => some X300
  | 6 => some X1000
  | 7 => some X2500
  | 8 => some X5000
  | 9 => some X10000
  | 10 => some X100000
  | _ => none

/-- Embeds `Multiplier::from_value`. -/
def from_value : Nat → Option Multiplier
  | 105 => some X105
  | 110 => some X110
  | 133 => some X133
  | 150 => some X150
  | 200 => some X200
  | 300 => some X300
  | 1000 => some X1000
  | 2500 => some X2500
  | 5000 => some X5000
  | 10000 => some X10000
  | 100000 => some X100000
  | _ => none

end Multiplier

/-- Model of Rust's `str::parse::<u64>` as used by
`NonceService::get_revealable_nonce` (src/nonce_service.rs): an optional
leading `+` sign, then one or more ASCII digits, value below `2 ^ 64`. -/
def parseU64Digits : List Char → Option Nat
  | [] => none
  | cs => cs.foldl
      (fun acc c =>
        match acc with
        | none => none
        | some v => if c.isDigit then some (v * 10 + (c.toNat - 48)) else none)
      (some 0)

/-- Full Rust `u64` parse: strips one optional leading `+`, requires at
least one digit, and rejects values that overflow 64 bits. -/
def parseU64 (s : String) : Option Nat :=
  let cs := match s.data with
    | '+' :: rest => rest
    | cs => cs
  match parseU64Digits cs with
  | some v => if v < 2 ^ 64 then some v else none
  | none => none

/-- Embeds `NonceService::get_revealable_nonce`: parse the queried nonce
string as a u64 and reveal it only when it is not the current nonce. -/
def get_revealable_nonce (current_nonce : Nat) (nonce_str : String) : Option String :=
  match parseU64 nonce_str with
  | none => none
  | some nonce_u64 =>
    if nonce_u64 ≠ current_nonce then some nonce_str else none

/-!
Executable SHA-256 over byte lists, used by the game evaluator
(`bitcoin::hashes::sha256::Hash::hash` in src/games/satoshis_number.rs).
Words are `Nat` kept below `2 ^ 32` by explicit reduction.
-/

/-- Right rotation of a 32-bit word. -/
def rotr32 (n x : Nat) : Nat :=
  ((x >>> n) ||| (x <<< (32 - n))) % 4294967296

/-- Message-schedule sigma-0. -/
def ssig0 (x : Nat) : Nat := (rotr32 7 x) ^^^ (rotr32 18 x) ^^^ (x >>> 3)

/-- Message-schedule sigma-1. -/
def ssig1 (x : Nat) : Nat := (rotr32 17 x) ^^^ (rotr32 19 x) ^^^ (x >>> 10)

/-- Compression big sigma-0. -/
def bsig0 (x : Nat) : Nat := (rotr32 2 x) ^^^ (rotr32 13 x) ^^^ (rotr32 22 x)

/-- Compression big sigma-1. -/
def bsig1 (x : Nat) : Nat := (rotr32 6 x) ^^^ (rotr32 11 x) ^^^ (rotr32 25 x)

/-- The 64 SHA-256 round constants, written in decimal. -/
def sha256K : List Nat :=
  [1116352408, 1899447441, 3049323471, 3921009573, 961987163, 1508970993,
   2453635748, 2870763221, 3624381080, 310598401, 607225278, 1426881987,
   1925078388, 2162078206, 2614888103, 3248222580, 3835390401, 4022224774,
   264347078, 604807628, 770255983, 1249150122, 1555081692, 1996064986,
   2554220882, 2821834349, 2952996808, 3210313671, 3336571891, 3584528711,
   113926993, 338241895, 666307205, 773529912, 1294757372, 1396182291,
   1695183700, 1986661051, 2177026350, 2456956037, 2730485921, 2820302411,
   3259730800, 3345764771, 3516065817, 3600352804, 4094571909, 275423344,
   430227734, 506948616, 659060556, 883997877, 958139571, 1322822218,
   1537002063, 1747873779, 1955562222, 2024104815, 2227730452, 2361852424,
   2428436474, 2756734187, 3204031479, 3329325298]

/-- The SHA-256 initial hash state, written in decimal. -/
def sha256H0 : List Nat :=
  [1779033703, 3144134277, 1013904242, 2773480762,
   1359893119, 2600822924, 528734635, 1541459225]

/-- Append one word to the message schedule from the last 16 entries. -/
def scheduleStep (ws : List Nat) : List Nat :=
  let i := ws.length
  let w := (ssig1 (ws.getD (i - 2) 0) + ws.getD (i - 7) 0 +
            ssig0 (ws.getD (i - 15) 0) + ws.getD (i - 16) 0) % 4294967296
  ws ++ [w]

/-- Extend a 16-word block by `n` schedule words. -/
def extendSchedule : List Nat → Nat → List Nat
  | ws, 0 => ws
  | ws, n + 1 => extendSchedule (scheduleStep ws) n

/-- One SHA-256 round on an 8-word working state. -/
def sha256Round (st : List Nat) (kw : Nat × Nat) : List Nat :=
  match st with
  | [a, b, c, d, e, f, g, h] =>
    let ch := (e &&& f) ^^^ ((4294967295 - e) &&& g)
    let maj := (a &&& b) ^^^ (a &&& c) ^^^ (b &&& c)
    let t1 := (h + bsig1 e + ch + kw.1 + kw.2) % 4294967296
    let t2 := (bsig0 a + maj) % 4294967296
    [(t1 + t2) % 4294967296, a, b, c, (d + t1) % 4294967296, e, f, g]
  | st => st

/-- Compress one 16-word block into the running 8-word hash state. -/
def compressBlock (h : List Nat) (block : List Nat) : List Nat :=
  let w := extendSchedule block 48
  let st := (sha256K.zip w).foldl sha256Round h
  (h.zip st).map (fun p => (p.1 + p.2) % 4294967296)

/-- SHA-256 padding: the 0x80 marker, zeros to 56 mod 64, and the 64-bit
big-endian bit length. -/
def sha256Pad (msg : List Nat) : List Nat :=
  let len := msg.length
  let zeros := (119 - len % 64) % 64
  let bits := len * 8
  msg ++ [0x80] ++ List.replicate zeros 0 ++
    [bits / 2 ^ 56 % 256, bits / 2 ^ 48 % 256, bits / 2 ^ 40 % 256,
     bits / 2 ^ 32 % 256, bits / 2 ^ 24 % 256, bits / 2 ^ 16 % 256,
     bits / 2 ^ 8 % 256, bits % 256]

/-- Group four big-endian bytes into one 32-bit word. -/
def bytesToWords : List Nat → List Nat
  | b0 :: b1 :: b2 :: b3 :: rest =>
    (b0 * 2 ^ 24 + b1 * 2 ^ 16 + b2 * 2 ^ 8 + b3) :: bytesToWords rest
  | _ => []

/-- Compress the word list 16 words at a time; the fuel argument only
bounds the recursion and is passed in larger than the block count. -/
def foldBlocks : Nat → List Nat → List Nat → List Nat
  | 0, h, _ => h
  | _ + 1, h, [] => h
  | fuel + 1, h, ws => foldBlocks fuel (compressBlock h (ws.take 16)) (ws.drop 16)

/-- Emit one 32-bit word as four big-endian bytes. -/
def wordBytes (w : Nat) : List Nat :=
  [w / 2 ^ 24 % 256, w / 2 ^ 16 % 256, w / 2 ^ 8 % 256, w % 256]

/-- SHA-256 of a byte list, as a 32-byte list. -/
def sha256 (msg : List Nat) : List Nat :=
  let ws := bytesToWords (sha256Pad msg)
  (foldBlocks ws.length sha256H0 ws).flatMap wordBytes

/-- Byte view of a string as the game code hashes it; agrees with UTF-8 on
the ASCII inputs (decimal nonce and hex txid) the code produces. -/
def asciiBytes (s : String) : List Nat := s.data.map Char.toNat

/-!
Exact model of IEEE-754 binary64 ("f64") arithmetic, restricted to the
positive normal range actually reached by the payout computation in
src/transaction_processor.rs and src/recovery.rs
(`input_amount as f64 * (multiplier as f64 / 100.0)` truncated `as u64`):
no overflow, no subnormals, so a binary64 operation is exactly
round-to-nearest-even at 53 significand bits of the rational result.
A model value `F64 p q` stands for the rational `p / q`; the rounding
keeps everything in `Nat`.
-/

/-- A nonnegative rational `num / den` representing an f64 value. -/
structure F64 where
  num : Nat
  den : Nat
  deriving DecidableEq, Repr

/-- Round the fraction `sp / sq` to the nearest integer, ties to even. -/
def roundHalfEven (sp sq : Nat) : Nat :=
  let n0 := sp / sq
  let r := sp % sq
  if sq < 2 * r then n0 + 1
  else if 2 * r < sq then n0
  else if n0 % 2 = 0 then n0 else n0 + 1

/-- Floor base-2 logarithm by repeated halving; the fuel argument only
bounds the recursion and the recursion stops well before it runs out. -/
def log2Fuel : Nat → Nat → Nat
  | 0, _ => 0
  | fuel + 1, n => if 2 ≤ n then log2Fuel fuel (n / 2) + 1 else 0

/-- Floor of the base-2 logarithm of a positive natural. -/
def natLog2 (n : Nat) : Nat := log2Fuel n n

/-- Round the positive fraction `p / q` (at least `2 ^ (-64)`) to 53
significand bits, ties to even: the exact result of an IEEE binary64
operation in the normal range. -/
def round53 (p q : Nat) : F64 :=
  if p = 0 then ⟨0, 1⟩
  else
    let e : Int := (natLog2 (p * 2 ^ 64 / q) : Int) - 64
    match 52 - e with
    | Int.ofNat kn => ⟨roundHalfEven (p * 2 ^ kn) q, 2 ^ kn⟩
    | Int.negSucc kn => ⟨roundHalfEven p (q * 2 ^ (kn + 1)) * 2 ^ (kn + 1), 1⟩

/-- Rust `n as f64` for a `u64` value. -/
def f64OfNat (n : Nat) : F64 := round53 n 1

/-- Binary64 multiplication of two model values. -/
def f64Mul (x y : F64) : F64 := round53 (x.num * y.num) (x.den * y.den)

/-- Binary64 division of two model values. -/
def f64Div (x y : F64) : F64 := round53 (x.num * y.den) (x.den * y.num)

/-- Rust `x as u64` on a nonnegative f64 in range: truncation. -/
def f64ToU64Trunc (x : F64) : Nat := x.num / x.den

/-- The payout computation shared by `TransactionProcessor::evaluate_game`
and `process_missed_games`:
`(input_amount as f64 * payout_multiplier) as u64`. -/
def payoutF64 (input_amount : Nat) (payout_multiplier : F64) : Nat :=
  f64ToU64Trunc (f64Mul (f64OfNat input_amount) payout_multiplier)

/-- Result of evaluating a game (src/games/mod.rs `GameEvaluation`);
`payout_multiplier` is an f64 in the source, modelled by its exact
rational value. -/
structure GameEvaluation where
  rolled_value : Int
  is_win : Bool
  payout_multiplier : Option F64
  deriving DecidableEq, Repr

/-- Embeds `SatoshisNumberGame::evaluate` (src/games/satoshis_number.rs):
hash the decimal nonce concatenated with the txid, read the first two
digest bytes as a big-endian u16, and win when it is below the
multiplier's threshold. -/
def SatoshisNumberGame.evaluate (nonce : Nat) (txid : String) (m : Multiplier) :
    GameEvaluation :=
  let hash_input := toString nonce ++ txid
  let hash_bytes := sha256 (asciiBytes hash_input)
  let random_value := hash_bytes.getD 0 0 * 256 + hash_bytes.getD 1 0
  let player_wins := m.is_win random_value
  { rolled_value := (random_value : Int)
    is_win := player_wins
    payout_multiplier :=
      if player_wins then some (f64Div (f64OfNat m.multiplier) (f64OfNat 100))
      else none }

/-!
Ledger model. The game-row shape follows `db::insert_game_result`
(src/db.rs); `id` and `timestamp` are assigned by the database and are
not part of the inserted values.
-/

/-- Values inserted by `db::insert_game_result`. -/
structure GameRow where
  nonce : String
  rolled_number : Int
  input_tx_id : String
  output_tx_id : Option String
  bet_amount : Int
  winning_amount : Option Int
  player_address : String
  is_winner : Bool
  payment_successful : Bool
  multiplier : Int
  deriving DecidableEq, Repr

/-- Ledger-layer error. -/
inductive DbError where
  | uniqueViolation
  deriving DecidableEq, Repr

/-- Embeds `db::is_transaction_processed` (src/db.rs): `COUNT(*) > 0`
over rows with the given `input_tx_id`. -/
def is_transaction_processed (ledger : List GameRow) (input_tx_id : String) : Bool :=
  0 < (ledger.filter (fun r => r.input_tx_id = input_tx_id)).length

/-- Modelled from the spec: the `UNIQUE(input_tx_id)` constraint on
`game_results` lives in the SQL schema (migrations), which is not under
src/; per spec section 6 the insert writes the row when no row with that
`input_tx_id` exists and is rejected with a uniqueness error otherwise. -/
def insert_game_result (ledger : List GameRow) (row : GameRow) :
    Except DbError (List GameRow) :=
  if ledger.any (fun r => r.input_tx_id = row.input_tx_id) then
    Except.error DbError.uniqueViolation
  else
    Except.ok (ledger ++ [row])

/-- At most one game row per `input_tx_id` (spec section 8, invariant 1). -/
def ExactlyOnce (ledger : List GameRow) : Prop :=
  ∀ tx, (ledger.filter (fun r => r.input_tx_id = tx)).length ≤ 1

/-!
Settlement-pipeline model (src/transaction_processor.rs). Effects on the
outside world — ledger writes, own-transaction inserts, payment updates,
backend sends, backoff sleeps — are modelled as an emitted trace of
operations, in program order. Addresses are modelled by their encoded
strings, outpoints by their txid string. The outcome of the fallible
backend `send` is an oracle from attempt number to the optional txid.
-/

/-- One externally visible operation of the pipeline or of recovery. -/
inductive Op where
  | insertGame (row : GameRow)
  | insertOwnTx (tx_id : String) (transaction_type : String)
  | markPaid (game_id : Nat) (output_tx_id : String)
  | send (payout_data : List (String × Nat))
  | sendVtxo (address : String) (amount : Nat)
  | sleepMs (ms : Nat)
  deriving DecidableEq, Repr

/-- Embeds `struct GameResult` of src/transaction_processor.rs. -/
structure GameRes where
  multiplier : Multiplier
  input_tx_id : String
  sender_address : String
  sender : String
  input_amount : Nat
  current_nonce : Nat
  rolled_number : Int
  is_win : Bool
  payout_amount : Option Nat
  deriving DecidableEq, Repr

/-- Embeds `TransactionProcessor::get_donation_threshold`:
`max_payout_sats * 100 / multiplier` in u64 arithmetic. -/
def get_donation_threshold (max_payout_sats : Nat) (m : Multiplier) : Nat :=
  max_payout_sats * 100 % 2 ^ 64 / m.multiplier

/-- Embeds `TransactionProcessor::evaluate_game`: resolve the sender as
the first parent address that is not our own, then classify the deposit
as a donation above the threshold or evaluate it as a game round. -/
def evaluate_game (parents : List String) (own_address : String)
    (current_nonce : Nat) (tx_id : String) (input_amount : Nat)
    (max_payout_sats : Nat) (m : Multiplier) : Option GameRes :=
  match parents.find? (fun a => a ≠ own_address) with
  | none => none
  | some sender_address =>
    if get_donation_threshold max_payout_sats m < input_amount then
      some { multiplier := m, input_tx_id := tx_id, sender_address := sender_address,
             sender := sender_address, input_amount := input_amount,
             current_nonce := current_nonce, rolled_number := -1,
             is_win := false, payout_amount := none }
    else
      let evaluation := SatoshisNumberGame.evaluate current_nonce tx_id m
      some { multiplier := m, input_tx_id := tx_id, sender_address := sender_address,
             sender := sender_address, input_amount := input_amount,
             current_nonce := current_nonce,
             rolled_number := evaluation.rolled_value,
             is_win := evaluation.is_win,
             payout_amount :=
               if evaluation.is_win then
                 some (payoutF64 input_amount (evaluation.payout_multiplier.getD ⟨0, 1⟩))
               else none }

/-- Batch classification of one evaluated result, mirroring the `match`
in `check_for_new_transactions`. -/
inductive Classified where
  | donation
  | winner
  | loser
  deriving DecidableEq, Repr

/-- Embeds the classification guards of `check_for_new_transactions`. -/
def classify_result (r : GameRes) (max_payout_sats : Nat) : Classified :=
  if r.payout_amount.isNone &&
      decide (get_donation_threshold max_payout_sats r.multiplier < r.input_amount) then
    Classified.donation
  else if r.is_win then Classified.winner
  else Classified.loser

/-- The game row written by `TransactionProcessor::process_winner_result`. -/
def winnerRow (w : GameRes) (payout_txid : Option String) : GameRow :=
  { nonce := toString w.current_nonce
    rolled_number := w.rolled_number
    input_tx_id := w.input_tx_id
    output_tx_id := payout_txid
    bet_amount := (w.input_amount : Int)
    winning_amount := w.payout_amount.map (fun p => (p : Int))
    player_address := w.sender
    is_winner := true
    payment_successful := payout_txid.isSome
    multiplier := (w.multiplier.multiplier : Int) }

/-- Embeds `TransactionProcessor::process_winner_result` (the broadcast
has no ledger or backend effect). -/
def process_winner_result (w : GameRes) (payout_txid : Option String) : List Op :=
  [Op.insertGame (winnerRow w payout_txid)]

/-- The game row written by `TransactionProcessor::process_donation`. -/
def donationRow (d : GameRes) : GameRow :=
  { nonce := toString d.current_nonce
    rolled_number := d.rolled_number
    input_tx_id := d.input_tx_id
    output_tx_id := none
    bet_amount := (d.input_amount : Int)
    winning_amount := none
    player_address := d.sender
    is_winner := false
    payment_successful := false
    multiplier := (d.multiplier.multiplier : Int) }

/-- Embeds `TransactionProcessor::process_donation`. -/
def process_donation (d : GameRes) : List Op :=
  [Op.insertGame (donationRow d)]

/-- The game row written by `TransactionProcessor::process_loser`. -/
def loserRow (l : GameRes) : GameRow :=
  { nonce := toString l.current_nonce
    rolled_number := l.rolled_number
    input_tx_id := l.input_tx_id
    output_tx_id := none
    bet_amount := (l.input_amount : Int)
    winning_amount := none
    player_address := l.sender
    is_winner := false
    payment_successful := true
    multiplier := (l.multiplier.multiplier : Int) }

/-- Embeds `TransactionProcessor::process_loser`. -/
def process_loser (l : GameRes) : List Op :=
  [Op.insertGame (loserRow l)]

/-- Embeds the retry loop of `TransactionProcessor::process_individual_winner`.
`retry_count` is the number of failed attempts so far; the fuel only
bounds the recursion and the loop exits before it runs out because
`MAX_RETRIES = 3`. -/
def individual_winner_loop (w : GameRes) (oracle : Nat → Option String)
    (retry_count : Nat) : Nat → List Op
  | 0 => []
  | fuel + 1 =>
    Op.send [(w.sender_address, w.payout_amount.getD 0)] ::
    match oracle retry_count with
    | some txid =>
      Op.insertOwnTx txid "individual_payout" :: process_winner_result w (some txid)
    | none =>
      if 3 ≤ retry_count + 1 then process_winner_result w none
      else Op.sleepMs (1000 * 2 ^ retry_count) ::
        individual_winner_loop w oracle (retry_count + 1) fuel

/-- Embeds `TransactionProcessor::process_individual_winner`. -/
def process_individual_winner (w : GameRes) (oracle : Nat → Option String) : List Op :=
  individual_winner_loop w oracle 0 3

/-- Embeds the retry loop of
`TransactionProcessor::process_regular_batch_winners`. -/
def regular_batch_loop (ws : List GameRes) (oracle : Nat → Option String)
    (retry_count : Nat) : Nat → List Op
  | 0 => []
  | fuel + 1 =>
    Op.send (ws.map (fun w => (w.sender_address, w.payout_amount.getD 0))) ::
    match oracle retry_count with
    | some txid =>
      Op.insertOwnTx txid "batch_payout" ::
        ws.flatMap (fun w => process_winner_result w (some txid))
    | none =>
      if 3 ≤ retry_count + 1 then ws.flatMap (fun w => process_winner_result w none)
      else Op.sleepMs (1000 * 2 ^ retry_count) ::
        regular_batch_loop ws oracle (retry_count + 1) fuel

/-- Embeds `TransactionProcessor::process_regular_batch_winners`. -/
def process_regular_batch_winners (ws : List GameRes) (oracle : Nat → Option String) :
    List Op :=
  regular_batch_loop ws oracle 0 3

/-- Embeds the per-winner retry loop of `recovery::process_missed_payouts`
(non-dry-run, address already decoded; `sync_spendable_vtxos` has no
ledger or payout effect). The loop runs `while retry_count < MAX_RETRIES`. -/
def missed_payout_loop (game_id : Nat) (player_address : String) (payout_sats : Nat)
    (oracle : Nat → Option String) (retry_count : Nat) : Nat → List Op
  | 0 => []
  | fuel + 1 =>
    Op.sendVtxo player_address payout_sats ::
    match oracle retry_count with
    | some txid => [Op.insertOwnTx txid "retry_payout", Op.markPaid game_id txid]
    | none =>
      if retry_count + 1 < 3 then
        Op.sleepMs 5000 :: missed_payout_loop game_id player_address payout_sats
          oracle (retry_count + 1) fuel
      else []

/-- Embeds the payout retry of one unpaid winner in
`recovery::process_missed_payouts`. -/
def process_missed_payout_winner (game_id : Nat) (player_address : String)
    (payout_sats : Nat) (oracle : Nat → Option String) : List Op :=
  missed_payout_loop game_id player_address payout_sats oracle 0 3

/-- Embeds the handling of a single VTXO inside
`recovery::process_missed_games`: skip processed or own transactions,
match the script to a game address, resolve an external sender, then
record a donation, an unpaid winner, or a loser — never sending. -/
def process_missed_games_vtxo (already_processed own_tx : Bool)
    (matched : Option Multiplier) (parents : List String) (own_address : String)
    (input_amount : Nat) (current_nonce : Nat) (tx_id : String)
    (max_payout_sats : Nat) (dry_run : Bool) : List Op :=
  if already_processed then []
  else if own_tx then []
  else
    match matched with
    | none => []
    | some m =>
      match parents.find? (fun a => a ≠ own_address) with
      | none => []
      | some sender_address =>
        let donation_threshold := max_payout_sats * 100 % 2 ^ 64 / m.multiplier
        if donation_threshold < input_amount then
          if dry_run then []
          else
            [Op.insertGame
              { nonce := toString current_nonce
                rolled_number := -1
                input_tx_id := tx_id
                output_tx_id := none
                bet_amount := (input_amount : Int)
                winning_amount := none
                player_address := sender_address
                is_winner := false
                payment_successful := false
                multiplier := (m.multiplier : Int) }]
        else
          let evaluation := SatoshisNumberGame.evaluate current_nonce tx_id m
          if evaluation.is_win then
            let payout_amount :=
              payoutF64 input_amount (evaluation.payout_multiplier.getD ⟨0, 1⟩)
            if dry_run then []
            else
              [Op.insertGame
                { nonce := toString current_nonce
                  rolled_number := evaluation.rolled_value
                  input_tx_id := tx_id
                  output_tx_id := none
                  bet_amount := (input_amount : Int)
                  winning_amount := some (payout_amount : Int)
                  player_address := sender_address
                  is_winner := true
                  payment_successful := false
                  multiplier := (m.multiplier : Int) }]
          else if dry_run then []
          else
            [Op.insertGame
              { nonce := toString current_nonce
                rolled_number := evaluation.rolled_value
                input_tx_id := tx_id
                output_tx_id := none
                bet_amount := (input_amount : Int)
                winning_amount := none
                player_address := sender_address
                is_winner := false
                payment_successful := true
                multiplier := (m.multiplier : Int) }]

/-- True on the backend payment operations (`ArkClient::send` and
`ArkClient::send_vtxo`). -/
def isSendOp : Op → Bool
  | Op.send _ => true
  | Op.sendVtxo _ _ => true
  | _ => false

/-- Number of backend payment attempts in a trace. -/
def countSends (ops : List Op) : Nat := (ops.filter isSendOp).length

/-- The backoff sleeps of a trace, in order, in milliseconds. -/
def sleepsOf (ops : List Op) : List Nat :=
  ops.filterMap (fun op => match op with | Op.sleepMs n => some n | _ => none)

/-- The game rows inserted by a trace, in order. -/
def gameInserts (ops : List Op) : List GameRow :=
  ops.filterMap (fun op => match op with | Op.insertGame r => some r | _ => none)

/-- A txid recorded as a successful payout by an operation: a game row
with `payment_successful` and that output txid, or a `mark_paid`. -/
def recordsPayout : Op → Option String
  | Op.insertGame r => if r.payment_successful then r.output_tx_id else none
  | Op.markPaid _ tx => some tx
  | _ => none

/-- Every operation recording a successful payout txid is preceded in the
trace by the insertion of that txid into `own_transactions`. -/
def OwnTxBeforeRecord (ops : List Op) : Prop :=
  ∀ j op tx, ops.get? j = some op → recordsPayout op = some tx →
    ∃ i ty, i < j ∧ ops.get? i = some (Op.insertOwnTx tx ty)

/-!
Monitoring-loop model (`TransactionProcessor::start_monitoring`): each
iteration runs one check; a failed check is logged and the loop sleeps
and continues — in particular it never exits the process.
-/

/-- Observable behaviour of one monitoring iteration. -/
inductive MonitorAction where
  | logError (msg : String)
  | sleep
  | exit
  deriving DecidableEq, Repr

/-- Embeds one iteration of the `loop` in `start_monitoring`:
`if let Err(e) = check { log }` then sleep for the check interval. -/
def monitor_iteration : Except String Unit → List MonitorAction
  | Except.ok _ => [MonitorAction.sleep]
  | Except.error e => [MonitorAction.logError e, MonitorAction.sleep]

/-- The actions of `start_monitoring` across a run whose successive check
outcomes are given by the list; the loop never stops by itself, so the
trace of a longer run extends that of a shorter one. -/
def start_monitoring : List (Except String Unit) → List MonitorAction
  | [] => []
  | c :: cs => monitor_iteration c ++ start_monitoring cs

/-!
Theorems. Each claim of the specification is settled by one theorem
below; auxiliary lemmas carry no claim by themselves.
-/

/-- Helper for the multiplier codec: a successful `from_value` lookup
pins the queried value to the multiplier's code. -/
theorem from_value_some_eq (v : Nat) (m : Multiplier)
    (h : Multiplier.from_value v = some m) : v = m.multiplier := by
  unfold Multiplier.from_value at h
  split at h <;> cases h <;> rfl

/-- C10: the multiplier codec round-trips: `from_index` inverts `index`,
`from_value` inverts `multiplier`, and both return `none` off the table
(indices above 10, values that are not one of the eleven codes). -/
theorem claim_C10_multiplier_codec :
    (∀ m : Multiplier, Multiplier.from_index m.index = some m) ∧
    (∀ m : Multiplier, Multiplier.from_value m.multiplier = some m) ∧
    (∀ i : Nat, 10 < i → Multiplier.from_index i = none) ∧
    (∀ v : Nat, (∀ m : Multiplier, v ≠ m.multiplier) → Multiplier.from_value v = none) := by
  refine ⟨fun m => by cases m <;> rfl, fun m => by cases m <;> rfl, ?_, ?_⟩
  · intro i hi
    obtain ⟨n, rfl⟩ : ∃ n, i = n + 11 := ⟨i - 11, by omega⟩
    rfl
  · intro v hv
    cases h : Multiplier.from_value v with
    | none => rfl
    | some m => exact absurd (from_value_some_eq v m h) (hv m)

/-- C10 witness: the codec evaluated just off the table. -/
theorem claim_C10_multiplier_codec_witness :
    Multiplier.from_index 11 = none ∧ Multiplier.from_value 7 = none :=
  ⟨claim_C10_multiplier_codec.2.2.1 11 (by decide),
   claim_C10_multiplier_codec.2.2.2 7 (by intro m; cases m <;> decide)⟩

/-- C9 counterexample: `"042"` differs from the decimal string `"42"` of
the current nonce, yet the service refuses to reveal it, because the code
compares parsed u64 values, not strings. -/
theorem claim_C9_counterexample :
    get_revealable_nonce 42 "042" = none ∧ "042" ≠ toString (42 : Nat) := by
  constructor
  · decide
  · decide

/-- C9 (amended): `revealable` returns `Some(nonce_str)` iff `nonce_str`
parses as a u64 whose value differs from the current nonce, and `None`
otherwise; any `Some` result carries the queried string unchanged. -/
theorem claim_C9_revealable_iff (current_nonce : Nat) (nonce_str : String) :
    (get_revealable_nonce current_nonce nonce_str = some nonce_str ↔
      ∃ v, parseU64 nonce_str = some v ∧ v ≠ current_nonce) ∧
    (∀ r, get_revealable_nonce current_nonce nonce_str = some r → r = nonce_str) := by
  unfold get_revealable_nonce
  cases h : parseU64 nonce_str with
  | none => simp
  | some v =>
    by_cases hv : v = current_nonce
    · subst hv
      simp
    · simp [hv]

/-- C8 counterexample: after a failed check the monitoring loop logs and
keeps running — the next scheduled check still executes, and no exit
action is ever emitted, contradicting process termination. -/
theorem claim_C8_counterexample :
    start_monitoring [Except.error "subscription failed", Except.ok ()] =
      [MonitorAction.logError "subscription failed", MonitorAction.sleep,
       MonitorAction.sleep] ∧
    MonitorAction.exit ∉
      start_monitoring [Except.error "subscription failed", Except.ok ()] ∧
    start_monitoring [Except.error "subscription failed", Except.ok ()] ≠
      start_monitoring [Except.error "subscription failed"] := by
  refine ⟨by decide, by decide, by decide⟩

/-- C8 (amended): a failure of the transaction check is logged and the
loop sleeps and continues with the remaining iterations; the monitoring
loop never terminates the process on its own. -/
theorem claim_C8_monitor_never_exits (checks : List (Except String Unit)) :
    MonitorAction.exit ∉ start_monitoring checks ∧
    (∀ e rest, start_monitoring (Except.error e :: rest) =
      MonitorAction.logError e :: MonitorAction.sleep :: start_monitoring rest) := by
  constructor
  · induction checks with
    | nil => simp [start_monitoring]
    | cons c cs ih =>
      simp only [start_monitoring, List.mem_append]
      rintro (hc | hc)
      · cases c <;> simp [monitor_iteration] at hc
      · exact ih hc
  · intro e rest
    rfl

/-- C1: the ledger holds at most one game row per `input_tx_id`: starting
from any ledger satisfying the invariant, a first `insert_game` for an
unseen `input_tx_id` appends the row and preserves the invariant, while a
repeated `insert_game` for a seen `input_tx_id` is rejected with the
uniqueness error and writes nothing. -/
theorem claim_C1_insert_game_exactly_once (ledger : List GameRow) (row : GameRow)
    (hinv : ExactlyOnce ledger) :
    (is_transaction_processed ledger row.input_tx_id = false →
      insert_game_result ledger row = Except.ok (ledger ++ [row]) ∧
      ExactlyOnce (ledger ++ [row])) ∧
    (is_transaction_processed ledger row.input_tx_id = true →
      insert_game_result ledger row = Except.error DbError.uniqueViolation) := by
  have hfilter : ∀ tx, (ledger.filter (fun r => r.input_tx_id = tx)).length ≤ 1 := hinv
  constructor
  · intro hnew
    have hnone : ∀ r ∈ ledger, ¬ r.input_tx_id = row.input_tx_id := by
      intro r hr heq
      have : r ∈ ledger.filter (fun s => s.input_tx_id = row.input_tx_id) := by
        simp [List.mem_filter, hr, heq]
      simp only [is_transaction_processed, decide_eq_false_iff_not, Nat.not_lt,
        Nat.le_zero, List.length_eq_zero] at hnew
      simp [hnew] at this
    have hany : ledger.any (fun r => r.input_tx_id = row.input_tx_id) = false := by
      simp only [List.any_eq_false, decide_eq_true_eq]
      exact hnone
    refine ⟨by simp [insert_game_result, hany], ?_⟩
    intro tx
    rw [List.filter_append, List.length_append]
    by_cases htx : row.input_tx_id = tx
    · subst htx
      have : ledger.filter (fun r => r.input_tx_id = row.input_tx_id) = [] := by
        rw [List.filter_eq_nil]
        intro r hr
        simpa using hnone r hr
      simp [this]
    · have : List.filter (fun r => decide (r.input_tx_id = tx)) [row] = [] := by
        simp [htx]
      rw [this]
      simpa using hfilter tx
  · intro hseen
    simp only [is_transaction_processed, decide_eq_true_eq] at hseen
    have hany : ledger.any (fun r => r.input_tx_id = row.input_tx_id) = true := by
      rcases List.exists_mem_of_length_pos hseen with ⟨r, hr⟩
      rw [List.mem_filter] at hr
      exact List.any_eq_true.mpr ⟨r, hr.1, hr.2⟩
    simp [insert_game_result, hany]

/-- C1 witness: a concrete first insert succeeds and the repeat insert of
the same `input_tx_id` is rejected. -/
theorem claim_C1_insert_game_exactly_once_witness :
    (insert_game_result []
       ⟨"42", 17192, "tx1", none, 500, some 1000, "player", true, false, 200⟩ =
      Except.ok [⟨"42", 17192, "tx1", none, 500, some 1000, "player", true, false, 200⟩]) ∧
    (insert_game_result [⟨"42", 17192, "tx1", none, 500, some 1000, "player", true, false, 200⟩]
       ⟨"42", 17192, "tx1", none, 500, some 1000, "player", true, false, 200⟩ =
      Except.error DbError.uniqueViolation) :=
  ⟨((claim_C1_insert_game_exactly_once []
      ⟨"42", 17192, "tx1", none, 500, some 1000, "player", true, false, 200⟩
      (fun tx => by simp)).1 (by decide)).1,
   (claim_C1_insert_game_exactly_once
      [⟨"42", 17192, "tx1", none, 500, some 1000, "player", true, false, 200⟩]
      ⟨"42", 17192, "tx1", none, 500, some 1000, "player", true, false, 200⟩
      (fun tx => by by_cases h : "tx1" = tx <;> simp [h])).2 (by decide)⟩

/-- Helper: a trace that records no successful payout trivially satisfies
the own-transaction ordering. -/
theorem ownTxBefore_of_no_records (ops : List Op)
    (h : ∀ op ∈ ops, recordsPayout op = none) : OwnTxBeforeRecord ops := by
  intro j op tx hget hrec
  rw [h op (List.get?_mem hget)] at hrec
  cases hrec

/-- Helper: in a trace of the form `pre ++ insertOwnTx t ty :: post` where
`pre` records no payout and `post` records only the txid `t`, every
recorded payout is preceded by its own-transaction insert. -/
theorem ownTxBefore_split (pre : List Op) (t ty : String) (post : List Op)
    (hpre : ∀ op ∈ pre, recordsPayout op = none)
    (hpost : ∀ op ∈ post, ∀ tx, recordsPayout op = some tx → tx = t) :
    OwnTxBeforeRecord (pre ++ Op.insertOwnTx t ty :: post) := by
  intro j op tx hget hrec
  by_cases hj : j < pre.length
  · rw [List.get?_append hj] at hget
    rw [hpre op (List.get?_mem hget)] at hrec
    cases hrec
  · push_neg at hj
    rcases Nat.eq_or_lt_of_le hj with heq | hlt
    · rw [List.get?_append_right hj, ← heq, Nat.sub_self] at hget
      have hop : op = Op.insertOwnTx t ty := by
        simpa using hget.symm
      rw [hop] at hrec
      cases hrec
    · rw [List.get?_append_right hj] at hget
      obtain ⟨d, hd⟩ : ∃ d, j - pre.length = d + 1 := ⟨j - pre.length - 1, by omega⟩
      rw [hd] at hget
      have hmem : op ∈ post := List.get?_mem hget
      have htx := hpost op hmem tx hrec
      subst htx
      refine ⟨pre.length, ty, by omega, ?_⟩
      rw [List.get?_append_right (Nat.le_refl _), Nat.sub_self]
      rfl

/-- C4: on every path that records a successful payout — individual dust
payouts, regular batch payouts, and recovery payout retries — the
`own_transactions` insert of the payout txid precedes the game-row insert
or the paid-marking for that txid. -/
theorem claim_C4_own_tx_insert_precedes_record :
    (∀ (w : GameRes) (oracle : Nat → Option String),
      OwnTxBeforeRecord (process_individual_winner w oracle)) ∧
    (∀ (ws : List GameRes) (oracle : Nat → Option String),
      OwnTxBeforeRecord (process_regular_batch_winners ws oracle)) ∧
    (∀ (game_id : Nat) (player_address : String) (payout_sats : Nat)
      (oracle : Nat → Option String),
      OwnTxBeforeRecord
        (process_missed_payout_winner game_id player_address payout_sats oracle)) := by
  refine ⟨?_, ?_, ?_⟩
  · intro w oracle
    cases h0 : oracle 0 with
    | some t0 =>
      simp only [process_individual_winner, individual_winner_loop, h0,
        process_winner_result]
      exact ownTxBefore_split [Op.send [(w.sender_address, w.payout_amount.getD 0)]]
        t0 "individual_payout" [Op.insertGame (winnerRow w (some t0))]
        (by simp [recordsPayout])
        (by simp [recordsPayout, winnerRow])
    | none =>
      cases h1 : oracle 1 with
      | some t1 =>
        simp only [process_individual_winner, individual_winner_loop, h0, h1,
          process_winner_result]
        norm_num
        exact ownTxBefore_split
          [Op.send [(w.sender_address, w.payout_amount.getD 0)], Op.sleepMs 1000,
           Op.send [(w.sender_address, w.payout_amount.getD 0)]]
          t1 "individual_payout" [Op.insertGame (winnerRow w (some t1))]
          (by simp [recordsPayout])
          (by simp [recordsPayout, winnerRow])
      | none =>
        cases h2 : oracle 2 with
        | some t2 =>
          simp only [process_individual_winner, individual_winner_loop, h0, h1, h2,
            process_winner_result]
          norm_num
          exact ownTxBefore_split
            [Op.send [(w.sender_address, w.payout_amount.getD 0)], Op.sleepMs 1000,
             Op.send [(w.sender_address, w.payout_amount.getD 0)], Op.sleepMs 2000,
             Op.send [(w.sender_address, w.payout_amount.getD 0)]]
            t2 "individual_payout" [Op.insertGame (winnerRow w (some t2))]
            (by simp [recordsPayout])
            (by simp [recordsPayout, winnerRow])
        | none =>
          simp only [process_individual_winner, individual_winner_loop, h0, h1, h2,
            process_winner_result]
          norm_num
          exact ownTxBefore_of_no_records _
            (by simp [recordsPayout, winnerRow])
  · intro ws oracle
    cases h0 : oracle 0 with
    | some t0 =>
      simp only [process_regular_batch_winners, regular_batch_loop, h0]
      exact ownTxBefore_split
        [Op.send (ws.map (fun w => (w.sender_address, w.payout_amount.getD 0)))]
        t0 "batch_payout" (ws.flatMap (fun w => process_winner_result w (some t0)))
        (by simp [recordsPayout])
        (by
          intro op hmem tx hrec
          rw [List.mem_flatMap] at hmem
          obtain ⟨w, _, hop⟩ := hmem
          simp only [process_winner_result, List.mem_singleton] at hop
          subst hop
          simpa [recordsPayout, winnerRow] using hrec.symm)
    | none =>
      cases h1 : oracle 1 with
      | some t1 =>
        simp only [process_regular_batch_winners, regular_batch_loop, h0, h1]
        norm_num
        exact ownTxBefore_split
          [Op.send (ws.map (fun w => (w.sender_address, w.payout_amount.getD 0))),
           Op.sleepMs 1000,
           Op.send (ws.map (fun w => (w.sender_address, w.payout_amount.getD 0)))]
          t1 "batch_payout" (ws.flatMap (fun w => process_winner_result w (some t1)))
          (by simp [recordsPayout])
          (by
            intro op hmem tx hrec
            rw [List.mem_flatMap] at hmem
            obtain ⟨w, _, hop⟩ := hmem
            simp only [process_winner_result, List.mem_singleton] at hop
            subst hop
            simpa [recordsPayout, winnerRow] using hrec.symm)
      | none =>
        cases h2 : oracle 2 with
        | some t2 =>
          simp only [process_regular_batch_winners, regular_batch_loop, h0, h1, h2]
          norm_num
          exact ownTxBefore_split
            [Op.send (ws.map (fun w => (w.sender_address, w.payout_amount.getD 0))),
             Op.sleepMs 1000,
             Op.send (ws.map (fun w => (w.sender_address, w.payout_amount.getD 0))),
             Op.sleepMs 2000,
             Op.send (ws.map (fun w => (w.sender_address, w.payout_amount.getD 0)))]
            t2 "batch_payout" (ws.flatMap (fun w => process_winner_result w (some t2)))
            (by simp [recordsPayout])
            (by
              intro op hmem tx hrec
              rw [List.mem_flatMap] at hmem
              obtain ⟨w, _, hop⟩ := hmem
              simp only [process_winner_result, List.mem_singleton] at hop
              subst hop
              simpa [recordsPayout, winnerRow] using hrec.symm)
        | none =>
          simp only [process_regular_batch_winners, regular_batch_loop, h0, h1, h2]
          norm_num
          refine ownTxBefore_of_no_records _ ?_
          intro op hop
          simp only [List.mem_cons, List.mem_flatMap, process_winner_result,
            List.mem_singleton, List.not_mem_nil, or_false] at hop
          rcases hop with rfl | rfl | rfl | rfl | rfl | ⟨w, _, rfl⟩ <;>
            simp [recordsPayout, winnerRow]
  · intro game_id player_address payout_sats oracle
    cases h0 : oracle 0 with
    | some t0 =>
      simp only [process_missed_payout_winner, missed_payout_loop, h0]
      exact ownTxBefore_split [Op.sendVtxo player_address payout_sats]
        t0 "retry_payout" [Op.markPaid game_id t0]
        (by simp [recordsPayout])
        (by simp [recordsPayout])
    | none =>
      cases h1 : oracle 1 with
      | some t1 =>
        simp only [process_missed_payout_winner, missed_payout_loop, h0, h1]
        norm_num
        exact ownTxBefore_split
          [Op.sendVtxo player_address payout_sats, Op.sleepMs 5000,
           Op.sendVtxo player_address payout_sats]
          t1 "retry_payout" [Op.markPaid game_id t1]
          (by simp [recordsPayout])
          (by simp [recordsPayout])
      | none =>
        cases h2 : oracle 2 with
        | some t2 =>
          simp only [process_missed_payout_winner, missed_payout_loop, h0, h1, h2]
          norm_num
          exact ownTxBefore_split
            [Op.sendVtxo player_address payout_sats, Op.sleepMs 5000,
             Op.sendVtxo player_address payout_sats, Op.sleepMs 5000,
             Op.sendVtxo player_address payout_sats]
            t2 "retry_payout" [Op.markPaid game_id t2]
            (by simp [recordsPayout])
            (by simp [recordsPayout])
        | none =>
          simp only [process_missed_payout_winner, missed_payout_loop, h0, h1, h2]
          norm_num
          exact ownTxBefore_of_no_records _ (by simp [recordsPayout])

/-- C6: an individual winner payout attempts the backend send at most
`MAX_RETRIES = 3` times; the backoff sleep after the k-th failed attempt
is `1000 * 2 ^ k` milliseconds (the 1s, 2s, 4s exponential schedule); and
when every attempt fails exactly one game row is still inserted, a winner
row with `payment_successful = FALSE` and no `output_tx_id`. -/
theorem claim_C6_payout_retry_bound (w : GameRes) (oracle : Nat → Option String) :
    countSends (process_individual_winner w oracle) ≤ 3 ∧
    sleepsOf (process_individual_winner w oracle) =
      (List.range (sleepsOf (process_individual_winner w oracle)).length).map
        (fun k => 1000 * 2 ^ k) ∧
    (oracle 0 = none → oracle 1 = none → oracle 2 = none →
      countSends (process_individual_winner w oracle) = 3 ∧
      sleepsOf (process_individual_winner w oracle) = [1000, 2000] ∧
      gameInserts (process_individual_winner w oracle) = [winnerRow w none] ∧
      (winnerRow w none).is_winner = true ∧
      (winnerRow w none).payment_successful = false ∧
      (winnerRow w none).output_tx_id = none) := by
  cases h0 : oracle 0 with
  | some t0 =>
    refine ⟨?_, ?_, ?_⟩
    · simp [process_individual_winner, individual_winner_loop, h0,
        process_winner_result, countSends, isSendOp]
    · simp [process_individual_winner, individual_winner_loop, h0,
        process_winner_result, sleepsOf]
    · intro hn0
      simp at hn0
  | none =>
    cases h1 : oracle 1 with
    | some t1 =>
      refine ⟨?_, ?_, ?_⟩
      · simp [process_individual_winner, individual_winner_loop, h0, h1,
          process_winner_result, countSends, isSendOp]
      · simp [process_individual_winner, individual_winner_loop, h0, h1,
          process_winner_result, sleepsOf, List.range_succ]
      · intro _ hn1
        simp at hn1
    | none =>
      cases h2 : oracle 2 with
      | some t2 =>
        refine ⟨?_, ?_, ?_⟩
        · simp [process_individual_winner, individual_winner_loop, h0, h1, h2,
            process_winner_result, countSends, isSendOp]
        · simp [process_individual_winner, individual_winner_loop, h0, h1, h2,
            process_winner_result, sleepsOf, List.range_succ]
        · intro _ _ hn2
          simp at hn2
      | none =>
        refine ⟨?_, ?_, ?_⟩
        · simp [process_individual_winner, individual_winner_loop, h0, h1, h2,
            process_winner_result, countSends, isSendOp]
        · simp [process_individual_winner, individual_winner_loop, h0, h1, h2,
            process_winner_result, sleepsOf, List.range_succ]
        · intro _ _ _
          refine ⟨?_, ?_, ?_, rfl, rfl, rfl⟩
          · simp [process_individual_winner, individual_winner_loop, h0, h1, h2,
              process_winner_result, countSends, isSendOp]
          · simp [process_individual_winner, individual_winner_loop, h0, h1, h2,
              process_winner_result, sleepsOf]
          · simp [process_individual_winner, individual_winner_loop, h0, h1, h2,
              process_winner_result, gameInserts]

/-- C6 witness: with a backend that always fails, the three sends, the
1s and 2s backoffs, and the single unpaid winner row, at a concrete
winner. -/
theorem claim_C6_payout_retry_bound_witness :
    countSends (process_individual_winner
      ⟨Multiplier.X200, "tx1", "addr", "addr", 500, 42, 17192, true, some 1000⟩
      (fun _ => none)) = 3 ∧
    sleepsOf (process_individual_winner
      ⟨Multiplier.X200, "tx1", "addr", "addr", 500, 42, 17192, true, some 1000⟩
      (fun _ => none)) = [1000, 2000] ∧
    gameInserts (process_individual_winner
      ⟨Multiplier.X200, "tx1", "addr", "addr", 500, 42, 17192, true, some 1000⟩
      (fun _ => none)) =
      [winnerRow ⟨Multiplier.X200, "tx1", "addr", "addr", 500, 42, 17192, true, some 1000⟩
        none] ∧
    (winnerRow ⟨Multiplier.X200, "tx1", "addr", "addr", 500, 42, 17192, true, some 1000⟩
      none).is_winner = true ∧
    (winnerRow ⟨Multiplier.X200, "tx1", "addr", "addr", 500, 42, 17192, true, some 1000⟩
      none).payment_successful = false ∧
    (winnerRow ⟨Multiplier.X200, "tx1", "addr", "addr", 500, 42, 17192, true, some 1000⟩
      none).output_tx_id = none :=
  (claim_C6_payout_retry_bound
    ⟨Multiplier.X200, "tx1", "addr", "addr", 500, 42, 17192, true, some 1000⟩
    (fun _ => none)).2.2 rfl rfl rfl

/-- Helper: every operation emitted for one VTXO by the missed-games
sweep is a game-row insert, and any winner row among them is unpaid with
no output txid. -/
theorem missed_games_vtxo_only_inserts (already_processed own_tx : Bool)
    (matched : Option Multiplier) (parents : List String) (own_address : String)
    (input_amount current_nonce : Nat) (tx_id : String) (max_payout_sats : Nat)
    (dry_run : Bool) :
    ∀ op ∈ process_missed_games_vtxo already_processed own_tx matched parents
      own_address input_amount current_nonce tx_id max_payout_sats dry_run,
      ∃ r, op = Op.insertGame r ∧
        (r.is_winner = true → r.payment_successful = false ∧ r.output_tx_id = none) := by
  intro op hop
  cases already_processed with
  | true => simp [process_missed_games_vtxo] at hop
  | false =>
  cases own_tx with
  | true => simp [process_missed_games_vtxo] at hop
  | false =>
  cases matched with
  | none => simp [process_missed_games_vtxo] at hop
  | some m =>
  cases hfind : parents.find? (fun a => !decide (a = own_address)) with
  | none => simp [process_missed_games_vtxo, hfind] at hop
  | some sender =>
  cases dry_run with
  | true => simp [process_missed_games_vtxo, hfind] at hop
  | false =>
  by_cases hth : max_payout_sats * 100 % 18446744073709551616 / m.multiplier < input_amount
  · simp [process_missed_games_vtxo, hfind, hth] at hop
    subst hop
    exact ⟨_, rfl, by simp⟩
  · cases hwin : (SatoshisNumberGame.evaluate current_nonce tx_id m).is_win with
    | true =>
      simp [process_missed_games_vtxo, hfind, hth, hwin] at hop
      subst hop
      exact ⟨_, rfl, by simp⟩
    | false =>
      simp [process_missed_games_vtxo, hfind, hth, hwin] at hop
      subst hop
      exact ⟨_, rfl, by simp⟩

/-- C7: the missed-games sweep performs no backend send at all: the trace
of one VTXO is made of game-row inserts only, and any winner row it
inserts has `is_winner = TRUE`, `payment_successful = FALSE` and no
`output_tx_id` — payouts are left to the missed-payouts sweep. -/
theorem claim_C7_missed_games_never_sends (already_processed own_tx : Bool)
    (matched : Option Multiplier) (parents : List String) (own_address : String)
    (input_amount current_nonce : Nat) (tx_id : String) (max_payout_sats : Nat)
    (dry_run : Bool) :
    countSends (process_missed_games_vtxo already_processed own_tx matched parents
      own_address input_amount current_nonce tx_id max_payout_sats dry_run) = 0 ∧
    (∀ op ∈ process_missed_games_vtxo already_processed own_tx matched parents
      own_address input_amount current_nonce tx_id max_payout_sats dry_run,
      ∃ r, op = Op.insertGame r) ∧
    (∀ r ∈ gameInserts (process_missed_games_vtxo already_processed own_tx matched
      parents own_address input_amount current_nonce tx_id max_payout_sats dry_run),
      r.is_winner = true →
      r.payment_successful = false ∧ r.output_tx_id = none) := by
  have h := missed_games_vtxo_only_inserts already_processed own_tx matched parents
    own_address input_amount current_nonce tx_id max_payout_sats dry_run
  refine ⟨?_, ?_, ?_⟩
  · rw [countSends, List.length_eq_zero, List.filter_eq_nil]
    intro op hop
    obtain ⟨r, rfl, _⟩ := h op hop
    simp [isSendOp]
  · intro op hop
    obtain ⟨r, rfl, _⟩ := h op hop
    exact ⟨r, rfl⟩
  · intro r hr
    rw [gameInserts, List.mem_filterMap] at hr
    obtain ⟨op, hop, hmatch⟩ := hr
    obtain ⟨s, rfl, hs⟩ := h op hop
    simp only [Option.some.injEq] at hmatch
    exact hmatch ▸ hs

/-- C5: a deposit strictly above `max_payout_sats * 100 / ratio` is
recorded as a donation — a single game row with `rolled_number = -1`,
`is_winner = FALSE`, `payment_successful = FALSE` and no
`winning_amount` — and triggers no payout attempt, both in the pipeline
classification and in the missed-games sweep. The code threshold
`max_payout_sats * 100 % 2 ^ 64 / ratio` never exceeds the exact cap, so
over-cap deposits are classified as donations for every configuration. -/
theorem claim_C5_over_cap_is_donation :
    (∀ (parents : List String) (own_address : String) (current_nonce : Nat)
       (tx_id : String) (input_amount max_payout_sats : Nat) (m : Multiplier)
       (r : GameRes),
      max_payout_sats * 100 / m.multiplier < input_amount →
      evaluate_game parents own_address current_nonce tx_id input_amount
        max_payout_sats m = some r →
      r.rolled_number = -1 ∧ r.is_win = false ∧ r.payout_amount = none ∧
      classify_result r max_payout_sats = Classified.donation ∧
      process_donation r = [Op.insertGame (donationRow r)] ∧
      (donationRow r).rolled_number = -1 ∧
      (donationRow r).is_winner = false ∧
      (donationRow r).payment_successful = false ∧
      (donationRow r).winning_amount = none ∧
      countSends (process_donation r) = 0) ∧
    (∀ (parents : List String) (own_address sender : String)
       (input_amount current_nonce : Nat) (tx_id : String)
       (max_payout_sats : Nat) (m : Multiplier),
      max_payout_sats * 100 / m.multiplier < input_amount →
      parents.find? (fun a => !decide (a = own_address)) = some sender →
      process_missed_games_vtxo false false (some m) parents own_address
        input_amount current_nonce tx_id max_payout_sats false =
        [Op.insertGame
          { nonce := toString current_nonce, rolled_number := -1, input_tx_id := tx_id,
            output_tx_id := none, bet_amount := (input_amount : Int),
            winning_amount := none, player_address := sender, is_winner := false,
            payment_successful := false, multiplier := (m.multiplier : Int) }] ∧
      countSends (process_missed_games_vtxo false false (some m) parents own_address
        input_amount current_nonce tx_id max_payout_sats false) = 0) := by
  constructor
  · intro parents own_address current_nonce tx_id input_amount max_payout_sats m r
      hcap hsome
    have hth : max_payout_sats * 100 % 2 ^ 64 / m.multiplier < input_amount :=
      lt_of_le_of_lt (Nat.div_le_div_right (Nat.mod_le _ _)) hcap
    simp only [evaluate_game, get_donation_threshold] at hsome
    cases hfind : parents.find? (fun a => decide (a ≠ own_address)) with
    | none => rw [hfind] at hsome; cases hsome
    | some sender =>
      rw [hfind] at hsome
      dsimp only at hsome
      rw [if_pos hth] at hsome
      simp only [Option.some.injEq] at hsome
      subst hsome
      refine ⟨rfl, rfl, rfl, ?_, rfl, rfl, rfl, rfl, rfl, rfl⟩
      simp only [classify_result, get_donation_threshold]
      rw [if_pos]
      simpa using hth
  · intro parents own_address sender input_amount current_nonce tx_id
      max_payout_sats m hcap hfind
    have hth : max_payout_sats * 100 % 18446744073709551616 / m.multiplier <
        input_amount :=
      lt_of_le_of_lt (Nat.div_le_div_right (Nat.mod_le _ _)) hcap
    constructor
    · simp [process_missed_games_vtxo, hfind, hth]
    · simp [process_missed_games_vtxo, hfind, hth, countSends, isSendOp]

/-- C5 witness: a 60000-sat deposit on the 2x address with the default
100000-sat cap (cap 50000) is classified and recorded as a donation. -/
theorem claim_C5_over_cap_is_donation_witness :
    (⟨Multiplier.X200, "tx", "p", "p", 60000, 42, -1, false, none⟩ : GameRes).rolled_number
        = -1 ∧
    classify_result ⟨Multiplier.X200, "tx", "p", "p", 60000, 42, -1, false, none⟩ 100000 =
      Classified.donation ∧
    process_missed_games_vtxo false false (some Multiplier.X200) ["p"] "own"
        60000 42 "tx" 100000 false =
      [Op.insertGame
        { nonce := toString (42 : Nat), rolled_number := -1, input_tx_id := "tx",
          output_tx_id := none, bet_amount := (60000 : Int),
          winning_amount := none, player_address := "p", is_winner := false,
          payment_successful := false, multiplier := (200 : Int) }] :=
  ⟨(claim_C5_over_cap_is_donation.1 ["p"] "own" 42 "tx" 60000 100000 Multiplier.X200
      ⟨Multiplier.X200, "tx", "p", "p", 60000, 42, -1, false, none⟩
      (by decide) (by decide)).1,
   (claim_C5_over_cap_is_donation.1 ["p"] "own" 42 "tx" 60000 100000 Multiplier.X200
      ⟨Multiplier.X200, "tx", "p", "p", 60000, 42, -1, false, none⟩
      (by decide) (by decide)).2.2.2.1,
   (claim_C5_over_cap_is_donation.2 ["p"] "own" "p" 60000 42 "tx" 100000
      Multiplier.X200 (by decide) (by decide)).1⟩

/-- Helper: every byte of a SHA-256 digest is below 256. -/
theorem sha256_bytes_lt (msg : List Nat) : ∀ b ∈ sha256 msg, b < 256 := by
  intro b hb
  unfold sha256 at hb
  rw [List.mem_flatMap] at hb
  obtain ⟨w, _, hw⟩ := hb
  simp only [wordBytes, List.mem_cons, List.mem_singleton, List.not_mem_nil,
    or_false] at hw
  rcases hw with rfl | rfl | rfl | rfl <;> exact Nat.mod_lt _ (by norm_num)

/-- Helper: indexing with default 0 into a list of bytes stays below 256. -/
theorem getD_lt_256 (l : List Nat) (h : ∀ b ∈ l, b < 256) (i : Nat) :
    l.getD i 0 < 256 := by
  cases hg : l[i]? with
  | none => simp [List.getD, hg]
  | some b =>
    have hb := h b (List.getElem?_mem hg)
    simpa [List.getD, hg] using hb

/-- C3: the evaluator hashes the decimal nonce concatenated with the
deposit txid, takes `r` as the big-endian u16 from the digest's first two
bytes, wins exactly when `r` is below the multiplier's threshold, and
returns `roll = r`, which always lies in `[0, 65535]`; the win decision
is an integer comparison. -/
theorem claim_C3_evaluator_formula (nonce : Nat) (txid : String) (m : Multiplier)
    (digest : List Nat) (r : Nat)
    (hd : digest = sha256 (asciiBytes (toString nonce ++ txid)))
    (hr : r = digest.getD 0 0 * 256 + digest.getD 1 0) :
    (SatoshisNumberGame.evaluate nonce txid m).rolled_value = (r : Int) ∧
    ((SatoshisNumberGame.evaluate nonce txid m).is_win = true ↔
      r < m.get_lower_than) ∧
    ((SatoshisNumberGame.evaluate nonce txid m).is_win = true ↔
      (SatoshisNumberGame.evaluate nonce txid m).rolled_value <
        (m.get_lower_than : Int)) ∧
    0 ≤ (SatoshisNumberGame.evaluate nonce txid m).rolled_value ∧
    (SatoshisNumberGame.evaluate nonce txid m).rolled_value ≤ 65535 := by
  subst hd
  subst hr
  have h0 : (sha256 (asciiBytes (toString nonce ++ txid))).getD 0 0 < 256 :=
    getD_lt_256 _ (sha256_bytes_lt _) 0
  have h1 : (sha256 (asciiBytes (toString nonce ++ txid))).getD 1 0 < 256 :=
    getD_lt_256 _ (sha256_bytes_lt _) 1
  have hle : (sha256 (asciiBytes (toString nonce ++ txid))).getD 0 0 * 256 +
      (sha256 (asciiBytes (toString nonce ++ txid))).getD 1 0 ≤ 65535 := by
    omega
  refine ⟨rfl, ?_, ?_, ?_, ?_⟩
  · simp [SatoshisNumberGame.evaluate, Multiplier.is_win]
  · simp only [SatoshisNumberGame.evaluate, Multiplier.is_win]
    rw [decide_eq_true_eq]
    exact Iff.symm Int.ofNat_lt
  · exact Int.natCast_nonneg _
  · show (((sha256 (asciiBytes (toString nonce ++ txid))).getD 0 0 * 256 +
      (sha256 (asciiBytes (toString nonce ++ txid))).getD 1 0 : Nat) : Int) ≤ 65535
    exact_mod_cast hle

set_option maxRecDepth 40000 in
/-- C3 witness: the full evaluator at nonce 42, the 64-hex-char txid made
of repeated "ab", and the 2x multiplier: the digest of the 66-byte ASCII
message is computed by the embedded SHA-256 (checked byte for byte
against the standard), the roll is `0x4328 = 17192 < 31784`, a win. -/
theorem claim_C3_evaluator_formula_witness :
    (SatoshisNumberGame.evaluate 42
      "abababababababababababababababababababababababababababababababab"
      Multiplier.X200).rolled_value = ((17192 : Nat) : Int) ∧
    ((SatoshisNumberGame.evaluate 42
      "abababababababababababababababababababababababababababababababab"
      Multiplier.X200).is_win = true ↔
      (17192 : Nat) < Multiplier.X200.get_lower_than) ∧
    ((SatoshisNumberGame.evaluate 42
      "abababababababababababababababababababababababababababababababab"
      Multiplier.X200).is_win = true ↔
      (SatoshisNumberGame.evaluate 42
        "abababababababababababababababababababababababababababababababab"
        Multiplier.X200).rolled_value < (Multiplier.X200.get_lower_than : Int)) ∧
    0 ≤ (SatoshisNumberGame.evaluate 42
      "abababababababababababababababababababababababababababababababab"
      Multiplier.X200).rolled_value ∧
    (SatoshisNumberGame.evaluate 42
      "abababababababababababababababababababababababababababababababab"
      Multiplier.X200).rolled_value ≤ 65535 :=
  claim_C3_evaluator_formula 42
    "abababababababababababababababababababababababababababababababab"
    Multiplier.X200
    (sha256 (asciiBytes (toString (42 : Nat) ++
      "abababababababababababababababababababababababababababababababab")))
    17192 rfl (by decide)

set_option maxRecDepth 400000 in
/-- C2 (code bug): the payout is computed in binary64 floating point
(`input_amount as f64 * (multiplier as f64 / 100.0)` truncated `as u64`),
not in exact integer arithmetic. At bet `2 ^ 53 + 1 = 9007199254740993`
sats on the 2x multiplier (below the donation cap when
`max_payout_sats = 2 ^ 55`), the deposit wins (roll `17192 < 31784`) and
both the pipeline and the missed-games sweep record
`winning_amount = 18014398509481984` — the f64 conversion rounds the odd
bet down to `2 ^ 53` — while
`floor(bet * 200 / 100) = 18014398509481986`. -/
theorem claim_C2_float_payout_diverges_from_integer_floor :
    evaluate_game ["player"] "house" 42
      "abababababababababababababababababababababababababababababababab"
      (2 ^ 53 + 1) (2 ^ 55) Multiplier.X200 =
      some ⟨Multiplier.X200,
        "abababababababababababababababababababababababababababababababab",
        "player", "player", 2 ^ 53 + 1, 42, 17192, true,
        some 18014398509481984⟩ ∧
    (winnerRow ⟨Multiplier.X200,
        "abababababababababababababababababababababababababababababababab",
        "player", "player", 2 ^ 53 + 1, 42, 17192, true,
        some 18014398509481984⟩ none).winning_amount =
      some (18014398509481984 : Int) ∧
    process_missed_games_vtxo false false (some Multiplier.X200) ["player"] "house"
        (2 ^ 53 + 1) 42
        "abababababababababababababababababababababababababababababababab"
        (2 ^ 55) false =
      [Op.insertGame
        { nonce := "42", rolled_number := 17192,
          input_tx_id :=
            "abababababababababababababababababababababababababababababababab",
          output_tx_id := none, bet_amount := ((2 ^ 53 + 1 : Nat) : Int),
          winning_amount := some (18014398509481984 : Int),
          player_address := "player", is_winner := true,
          payment_successful := false, multiplier := (200 : Int) }] ∧
    (2 ^ 53 + 1) * 200 / 100 = 18014398509481986 ∧
    (18014398509481984 : Nat) ≠ (2 ^ 53 + 1) * 200 / 100 := by
  refine ⟨by decide, by decide, by decide, by decide, by decide⟩

/-- C4 witness: the ordering property instantiated at a concrete winner
whose payout succeeds immediately. -/
theorem claim_C4_own_tx_insert_precedes_record_witness :
    OwnTxBeforeRecord (process_individual_winner
      ⟨Multiplier.X200, "tx1", "addr", "addr", 500, 42, 17192, true, some 1000⟩
      (fun _ => some "pay")) ∧
    OwnTxBeforeRecord (process_missed_payout_winner 7 "addr" 900
      (fun _ => some "pay2")) :=
  ⟨claim_C4_own_tx_insert_precedes_record.1
      ⟨Multiplier.X200, "tx1", "addr", "addr", 500, 42, 17192, true, some 1000⟩
      (fun _ => some "pay"),
   claim_C4_own_tx_insert_precedes_record.2.2 7 "addr" 900 (fun _ => some "pay2")⟩

/-- C7 witness: the sweep at a concrete unprocessed donation-sized VTXO
sends nothing and inserts one game row. -/
theorem claim_C7_missed_games_never_sends_witness :
    countSends (process_missed_games_vtxo false false (some Multiplier.X200) ["p"]
      "own" 60000 42 "tx" 100000 false) = 0 ∧
    (∃ r, Op.insertGame
        { nonce := "42", rolled_number := -1, input_tx_id := "tx",
          output_tx_id := none, bet_amount := (60000 : Int), winning_amount := none,
          player_address := "p", is_winner := false, payment_successful := false,
          multiplier := (200 : Int) } = Op.insertGame r) :=
  ⟨(claim_C7_missed_games_never_sends false false (some Multiplier.X200) ["p"]
      "own" 60000 42 "tx" 100000 false).1,
   (claim_C7_missed_games_never_sends false false (some Multiplier.X200) ["p"]
      "own" 60000 42 "tx" 100000 false).2.1 _ (by decide)⟩

/-- C8 witness: the amended theorem applied to a one-failure run. -/
theorem claim_C8_monitor_never_exits_witness :
    MonitorAction.exit ∉ start_monitoring [Except.error "boom"] ∧
    start_monitoring [Except.error "boom"] =
      MonitorAction.logError "boom" :: MonitorAction.sleep :: start_monitoring [] :=
  ⟨(claim_C8_monitor_never_exits [Except.error "boom"]).1,
   (claim_C8_monitor_never_exits []).2 "boom" []⟩

/-- C9 witness: the amended reveal rule applied at current nonce 42 and
the distinct queried nonce string 43. -/
theorem claim_C9_revealable_iff_witness :
    get_revealable_nonce 42 "43" = some "43" :=
  (claim_C9_revealable_iff 42 "43").1.mpr ⟨43, by decide, by decide⟩
